import Mathlib

/-
Verification of the FDTD (Yee grid) Maxwell simulation engine
(src/simulator.ts) against its natural-language specification.

Real numbers from the source are modelled as exact rationals (ℚ); machine
integers (grid indices, dimensions) as ℕ.  A `ScalarField3D` is a nested
list indexed `[x][y][z]`.  The gpu.js execution backend runs a per-cell
kernel body over the index space `(x, y, z)` of extent `gridSize` and
materialises its output with the backend-native nesting `[z][y][x]`
(modelled by `runKernel`); `copyScalarFieldReverse` is the layout adapter
converting that back to the engine's `[x][y][z]` convention, exactly as in
the source.
-/

abbrev ScalarField3D : Type := List (List (List ℚ))

/-- `makeField3D shape getValue` from the source: nested push loops building
a `shape.1 × shape.2.1 × shape.2.2` array with `getValue (x, y, z)` at
position `[x][y][z]`. -/
def makeField3D (shape : Nat × Nat × Nat) (getValue : Nat × Nat × Nat → ℚ) : ScalarField3D :=
  (List.range shape.1).map fun x =>
    (List.range shape.2.1).map fun y =>
      (List.range shape.2.2).map fun z => getValue (x, y, z)

/-- Read a field at `[x][y][z]`; out-of-range reads default to `0`
(never exercised on well-shaped fields). -/
def get3 (f : ScalarField3D) (x y z : Nat) : ℚ :=
  ((f.getD x []).getD y []).getD z 0

/-- `field.length` in the source. -/
def dim0 (f : ScalarField3D) : Nat := f.length

/-- `field[0].length` in the source. -/
def dim1 (f : ScalarField3D) : Nat := (f.getD 0 []).length

/-- `field[0][0].length` in the source. -/
def dim2 (f : ScalarField3D) : Nat := ((f.getD 0 []).getD 0 []).length

/-- `copyScalarFieldReverse` from the source: allocate a
`dim2 × dim1 × dim0` array, then set `newField[z][y][x] = field[x][y][z]`. -/
def copyScalarFieldReverse (field : ScalarField3D) : ScalarField3D :=
  (List.range (dim2 field)).map fun z =>
    (List.range (dim1 field)).map fun y =>
      (List.range (dim0 field)).map fun x => get3 field x y z

/-- The `SimulationData` record from the source. -/
structure SimulationData where
  time : ℚ
  electricFieldX : ScalarField3D
  electricFieldY : ScalarField3D
  electricFieldZ : ScalarField3D
  magneticFieldX : ScalarField3D
  magneticFieldY : ScalarField3D
  magneticFieldZ : ScalarField3D
  permittivity : ScalarField3D
  permeability : ScalarField3D
deriving DecidableEq

/-- Body of the `updateMagneticX` kernel at thread `(x, y, z)`:
`fieldY` = Ey, `fieldZ` = Ez, `magFieldX` = Hx; the bounds checks compare
against the kernel's output extent (`gridSize`). -/
def updateMagneticX (gridSize : Nat × Nat × Nat) (cellSize : ℚ)
    (fieldY fieldZ magFieldX : ScalarField3D) (dt : ℚ) (x y z : Nat) : ℚ :=
  let v : ℚ := if y + 1 ≥ gridSize.2.1 then 0 else get3 fieldZ x (y + 1) z
  let w : ℚ := if z + 1 ≥ gridSize.2.2 then 0 else get3 fieldY x y (z + 1)
  get3 magFieldX x y z -
    dt * ((v - get3 fieldZ x y z) - (w - get3 fieldY x y z)) / cellSize

/-- Body of the `updateMagneticY` kernel at thread `(x, y, z)`:
`fieldX` = Ex, `fieldZ` = Ez, `magFieldY` = Hy. -/
def updateMagneticY (gridSize : Nat × Nat × Nat) (cellSize : ℚ)
    (fieldX fieldZ magFieldY : ScalarField3D) (dt : ℚ) (x y z : Nat) : ℚ :=
  let u : ℚ := if x + 1 ≥ gridSize.1 then 0 else get3 fieldZ (x + 1) y z
  let w : ℚ := if z + 1 ≥ gridSize.2.2 then 0 else get3 fieldX x y (z + 1)
  get3 magFieldY x y z -
    dt * ((w - get3 fieldX x y z) - (u - get3 fieldZ x y z)) / cellSize

/-- Body of the `updateMagneticZ` kernel at thread `(x, y, z)`:
`fieldX` = Ex, `fieldY` = Ey, `magFieldZ` = Hz. -/
def updateMagneticZ (gridSize : Nat × Nat × Nat) (cellSize : ℚ)
    (fieldX fieldY magFieldZ : ScalarField3D) (dt : ℚ) (x y z : Nat) : ℚ :=
  let u : ℚ := if x + 1 ≥ gridSize.1 then 0 else get3 fieldY (x + 1) y z
  let v : ℚ := if y + 1 ≥ gridSize.2.1 then 0 else get3 fieldX x (y + 1) z
  get3 magFieldZ x y z -
    dt * ((u - get3 fieldY x y z) - (v - get3 fieldX x y z)) / cellSize

/-- Body of the `updateElectricX` kernel at thread `(x, y, z)`:
`fieldY` = Hy, `fieldZ` = Hz, `elFieldX` = Ex; for integer indices the
source's guard `y - 1 < 0` is exactly `y = 0`. -/
def updateElectricX (cellSize : ℚ)
    (fieldY fieldZ elFieldX : ScalarField3D) (dt : ℚ) (x y z : Nat) : ℚ :=
  let v : ℚ := if y = 0 then 0 else get3 fieldZ x (y - 1) z
  let w : ℚ := if z = 0 then 0 else get3 fieldY x y (z - 1)
  get3 elFieldX x y z +
    dt * ((get3 fieldZ x y z - v) - (get3 fieldY x y z - w)) / cellSize

/-- Body of the `updateElectricY` kernel at thread `(x, y, z)`:
`fieldX` = Hx, `fieldZ` = Hz, `elFieldY` = Ey. -/
def updateElectricY (cellSize : ℚ)
    (fieldX fieldZ elFieldY : ScalarField3D) (dt : ℚ) (x y z : Nat) : ℚ :=
  let u : ℚ := if x = 0 then 0 else get3 fieldZ (x - 1) y z
  let w : ℚ := if z = 0 then 0 else get3 fieldX x y (z - 1)
  get3 elFieldY x y z +
    dt * ((get3 fieldX x y z - w) - (get3 fieldZ x y z - u)) / cellSize

/-- Body of the `updateElectricZ` kernel at thread `(x, y, z)`:
`fieldX` = Hx, `fieldY` = Hy, `elFieldZ` = Ez. -/
def updateElectricZ (cellSize : ℚ)
    (fieldX fieldY elFieldZ : ScalarField3D) (dt : ℚ) (x y z : Nat) : ℚ :=
  let u : ℚ := if x = 0 then 0 else get3 fieldY (x - 1) y z
  let v : ℚ := if y = 0 then 0 else get3 fieldX x (y - 1) z
  get3 elFieldZ x y z +
    dt * ((get3 fieldY x y z - u) - (get3 fieldX x y z - v)) / cellSize

/-- Run a kernel body over the `gridSize` index space, materialising the
result in the backend-native `[z][y][x]` nesting (gpu.js 3D output order). -/
def runKernel (gridSize : Nat × Nat × Nat) (body : Nat → Nat → Nat → ℚ) : ScalarField3D :=
  (List.range gridSize.2.2).map fun z =>
    (List.range gridSize.2.1).map fun y =>
      (List.range gridSize.1).map fun x => body x y z

/-- The `FDTDSimulator` engine: grid extent and cell size fixed at
construction, plus the mutable `data` record. -/
structure FDTDSimulator where
  gridSize : Nat × Nat × Nat
  cellSize : ℚ
  data : SimulationData
deriving DecidableEq

/-- The `FDTDSimulator` constructor: allocates all eight fields zero-filled
over `gridSize` and sets `time = 0`.  (The source performs no validation of
`gridSize` or `cellSize`.) -/
def FDTDSimulator.construct (gridSize : Nat × Nat × Nat) (cellSize : ℚ) : FDTDSimulator :=
  { gridSize := gridSize
    cellSize := cellSize
    data :=
      { time := 0
        electricFieldX := makeField3D gridSize fun _ => 0
        electricFieldY := makeField3D gridSize fun _ => 0
        electricFieldZ := makeField3D gridSize fun _ => 0
        magneticFieldX := makeField3D gridSize fun _ => 0
        magneticFieldY := makeField3D gridSize fun _ => 0
        magneticFieldZ := makeField3D gridSize fun _ => 0
        permittivity := makeField3D gridSize fun _ => 0
        permeability := makeField3D gridSize fun _ => 0 } }

/-- `stepElectric(dt)`: run the three electric kernels on the current
snapshot, adapt each result's layout, store the new components, then
advance `time` by `dt / 2`. -/
def FDTDSimulator.stepElectric (sim : FDTDSimulator) (dt : ℚ) : FDTDSimulator :=
  let d := sim.data
  let ex := copyScalarFieldReverse (runKernel sim.gridSize
    (updateElectricX sim.cellSize d.magneticFieldY d.magneticFieldZ d.electricFieldX dt))
  let ey := copyScalarFieldReverse (runKernel sim.gridSize
    (updateElectricY sim.cellSize d.magneticFieldX d.magneticFieldZ d.electricFieldY dt))
  let ez := copyScalarFieldReverse (runKernel sim.gridSize
    (updateElectricZ sim.cellSize d.magneticFieldX d.magneticFieldY d.electricFieldZ dt))
  { sim with data :=
    { d with
        electricFieldX := ex
        electricFieldY := ey
        electricFieldZ := ez
        time := d.time + dt / 2 } }

/-- `stepMagnetic(dt)`: run the three magnetic kernels on the current
snapshot, adapt each result's layout, store the new components, then
advance `time` by `dt / 2`. -/
def FDTDSimulator.stepMagnetic (sim : FDTDSimulator) (dt : ℚ) : FDTDSimulator :=
  let d := sim.data
  let hx := copyScalarFieldReverse (runKernel sim.gridSize
    (updateMagneticX sim.gridSize sim.cellSize d.electricFieldY d.electricFieldZ d.magneticFieldX dt))
  let hy := copyScalarFieldReverse (runKernel sim.gridSize
    (updateMagneticY sim.gridSize sim.cellSize d.electricFieldX d.electricFieldZ d.magneticFieldY dt))
  let hz := copyScalarFieldReverse (runKernel sim.gridSize
    (updateMagneticZ sim.gridSize sim.cellSize d.electricFieldX d.electricFieldY d.magneticFieldZ dt))
  { sim with data :=
    { d with
        magneticFieldX := hx
        magneticFieldY := hy
        magneticFieldZ := hz
        time := d.time + dt / 2 } }

/-- `getData()` from the source. -/
def FDTDSimulator.getData (sim : FDTDSimulator) : SimulationData := sim.data

/-- One full leapfrog cycle: `stepElectric(dt)` then `stepMagnetic(dt)`. -/
def stepCycle (sim : FDTDSimulator) (dt : ℚ) : FDTDSimulator :=
  (sim.stepElectric dt).stepMagnetic dt

/-- `k` full leapfrog cycles with step size `dt`. -/
def runCycles (sim : FDTDSimulator) (dt : ℚ) : Nat → FDTDSimulator
  | 0 => sim
  | k + 1 => stepCycle (runCycles sim dt k) dt

/-- One public stepping operation of the engine. -/
inductive SimOp where
  | stepE (dt : ℚ)
  | stepM (dt : ℚ)
deriving DecidableEq

/-- Apply a finite sequence of public stepping operations. -/
def runOps (sim : FDTDSimulator) : List SimOp → FDTDSimulator
  | [] => sim
  | SimOp.stepE dt :: rest => runOps (sim.stepElectric dt) rest
  | SimOp.stepM dt :: rest => runOps (sim.stepMagnetic dt) rest

/-- A field is a dense `a × b × c` array. -/
def hasShape (f : ScalarField3D) (a b c : Nat) : Prop :=
  f.length = a ∧ ∀ row ∈ f, row.length = b ∧ ∀ cell ∈ row, cell.length = c

instance (f : ScalarField3D) (a b c : Nat) : Decidable (hasShape f a b c) := by
  unfold hasShape
  exact inferInstance

/-- All eight stored fields have the constructed grid shape. -/
def allShapes (sim : FDTDSimulator) : Prop :=
  hasShape sim.data.electricFieldX sim.gridSize.1 sim.gridSize.2.1 sim.gridSize.2.2 ∧
  hasShape sim.data.electricFieldY sim.gridSize.1 sim.gridSize.2.1 sim.gridSize.2.2 ∧
  hasShape sim.data.electricFieldZ sim.gridSize.1 sim.gridSize.2.1 sim.gridSize.2.2 ∧
  hasShape sim.data.magneticFieldX sim.gridSize.1 sim.gridSize.2.1 sim.gridSize.2.2 ∧
  hasShape sim.data.magneticFieldY sim.gridSize.1 sim.gridSize.2.1 sim.gridSize.2.2 ∧
  hasShape sim.data.magneticFieldZ sim.gridSize.1 sim.gridSize.2.1 sim.gridSize.2.2 ∧
  hasShape sim.data.permittivity sim.gridSize.1 sim.gridSize.2.1 sim.gridSize.2.2 ∧
  hasShape sim.data.permeability sim.gridSize.1 sim.gridSize.2.1 sim.gridSize.2.2

/-- A field reads as `0` at every coordinate. -/
def allZero (f : ScalarField3D) : Prop :=
  ∀ x y z : Nat, get3 f x y z = 0

/-- Modelled from the spec: the construction-time validation described in
the spec (three positive integer grid dimensions and a positive cell size;
otherwise a configuration error), which has no counterpart in
src/simulator.ts. -/
def constructChecked (gridSize : Nat × Nat × Nat) (cellSize : ℚ) :
    Option FDTDSimulator :=
  if 0 < gridSize.1 ∧ 0 < gridSize.2.1 ∧ 0 < gridSize.2.2 ∧ 0 < cellSize then
    some (FDTDSimulator.construct gridSize cellSize)
  else
    none

theorem getD_range_map {α : Type} (n : Nat) (g : Nat → α) (i : Nat) (d : α) :
    ((List.range n).map g).getD i d = if i < n then g i else d := by
  by_cases h : i < n
  · rw [List.getD_eq_getElem?_getD, List.getElem?_map, List.getElem?_range h]
    simp [h]
  · rw [List.getD_eq_getElem?_getD, List.getElem?_eq_none]
    · simp [h]
    · simpa using Nat.le_of_not_lt h

theorem get3_nest (a b c : Nat) (g : Nat → Nat → Nat → ℚ) (x y z : Nat) :
    get3 ((List.range a).map fun i =>
            (List.range b).map fun j =>
              (List.range c).map fun k => g i j k) x y z
      = if x < a ∧ y < b ∧ z < c then g x y z else 0 := by
  unfold get3
  rw [getD_range_map]
  by_cases hx : x < a
  · rw [if_pos hx, getD_range_map]
    by_cases hy : y < b
    · rw [if_pos hy, getD_range_map]
      by_cases hz : z < c
      · simp [hx, hy, hz]
      · simp [hx, hy, hz]
    · simp [hx, hy]
  · simp [hx]

theorem get3_makeField3D (shape : Nat × Nat × Nat) (g : Nat × Nat × Nat → ℚ) (x y z : Nat) :
    get3 (makeField3D shape g) x y z
      = if x < shape.1 ∧ y < shape.2.1 ∧ z < shape.2.2 then g (x, y, z) else 0 := by
  unfold makeField3D
  exact get3_nest shape.1 shape.2.1 shape.2.2 (fun i j k => g (i, j, k)) x y z

theorem dim0_nest {α : Type} (a : Nat) (F : Nat → List α) :
    ((List.range a).map F).length = a := by
  simp

theorem dim1_runKernel (gridSize : Nat × Nat × Nat) (body : Nat → Nat → Nat → ℚ)
    (h : 0 < gridSize.2.2) : dim1 (runKernel gridSize body) = gridSize.2.1 := by
  unfold dim1 runKernel
  rw [getD_range_map, if_pos h]
  simp

theorem dim2_runKernel (gridSize : Nat × Nat × Nat) (body : Nat → Nat → Nat → ℚ)
    (h2 : 0 < gridSize.2.2) (h1 : 0 < gridSize.2.1) :
    dim2 (runKernel gridSize body) = gridSize.1 := by
  unfold dim2 runKernel
  rw [getD_range_map, if_pos h2, getD_range_map, if_pos h1]
  simp

theorem dim0_runKernel (gridSize : Nat × Nat × Nat) (body : Nat → Nat → Nat → ℚ) :
    dim0 (runKernel gridSize body) = gridSize.2.2 := by
  unfold dim0 runKernel
  simp

theorem get3_runKernel (gridSize : Nat × Nat × Nat) (body : Nat → Nat → Nat → ℚ) (i j k : Nat) :
    get3 (runKernel gridSize body) i j k
      = if i < gridSize.2.2 ∧ j < gridSize.2.1 ∧ k < gridSize.1 then body k j i else 0 := by
  unfold runKernel
  exact get3_nest gridSize.2.2 gridSize.2.1 gridSize.1 (fun i j k => body k j i) i j k

theorem copyScalarFieldReverse_nest (field : ScalarField3D) (x y z : Nat) :
    get3 (copyScalarFieldReverse field) x y z
      = if x < dim2 field ∧ y < dim1 field ∧ z < dim0 field then get3 field z y x else 0 := by
  unfold copyScalarFieldReverse
  exact get3_nest (dim2 field) (dim1 field) (dim0 field) (fun i j k => get3 field k j i) x y z

/-- The net effect of running a kernel over the grid and adapting the
result's layout: at an in-range engine coordinate `(x, y, z)` the stored
value is the kernel body at thread `(x, y, z)`. -/
theorem get3_adapt (gridSize : Nat × Nat × Nat) (body : Nat → Nat → Nat → ℚ) (x y z : Nat) :
    get3 (copyScalarFieldReverse (runKernel gridSize body)) x y z
      = if x < gridSize.1 ∧ y < gridSize.2.1 ∧ z < gridSize.2.2 then body x y z else 0 := by
  rw [copyScalarFieldReverse_nest, get3_runKernel, dim0_runKernel]
  by_cases h3 : z < gridSize.2.2
  · have h3' : 0 < gridSize.2.2 := Nat.lt_of_le_of_lt (Nat.zero_le z) h3
    rw [dim1_runKernel _ _ h3']
    by_cases h2 : y < gridSize.2.1
    · have h2' : 0 < gridSize.2.1 := Nat.lt_of_le_of_lt (Nat.zero_le y) h2
      rw [dim2_runKernel _ _ h3' h2']
      by_cases h1 : x < gridSize.1
      · simp [h1, h2, h3]
      · rw [if_neg (by tauto), if_neg (by tauto)]
    · rw [if_neg (by tauto), if_neg (by tauto)]
  · rw [if_neg (by tauto), if_neg (by tauto)]

example : get3 (makeField3D (2, 2, 2) fun p => if p = (0, 1, 1) then 5 else 0) 0 1 1 = 5 := by
  decide

theorem stepMagnetic_Hx_def (sim : FDTDSimulator) (dt : ℚ) :
    (sim.stepMagnetic dt).data.magneticFieldX
      = copyScalarFieldReverse (runKernel sim.gridSize
          (updateMagneticX sim.gridSize sim.cellSize
            sim.data.electricFieldY sim.data.electricFieldZ sim.data.magneticFieldX dt)) := rfl

theorem stepMagnetic_Hy_def (sim : FDTDSimulator) (dt : ℚ) :
    (sim.stepMagnetic dt).data.magneticFieldY
      = copyScalarFieldReverse (runKernel sim.gridSize
          (updateMagneticY sim.gridSize sim.cellSize
            sim.data.electricFieldX sim.data.electricFieldZ sim.data.magneticFieldY dt)) := rfl

theorem stepMagnetic_Hz_def (sim : FDTDSimulator) (dt : ℚ) :
    (sim.stepMagnetic dt).data.magneticFieldZ
      = copyScalarFieldReverse (runKernel sim.gridSize
          (updateMagneticZ sim.gridSize sim.cellSize
            sim.data.electricFieldX sim.data.electricFieldY sim.data.magneticFieldZ dt)) := rfl

theorem stepElectric_Ex_def (sim : FDTDSimulator) (dt : ℚ) :
    (sim.stepElectric dt).data.electricFieldX
      = copyScalarFieldReverse (runKernel sim.gridSize
          (updateElectricX sim.cellSize
            sim.data.magneticFieldY sim.data.magneticFieldZ sim.data.electricFieldX dt)) := rfl

theorem stepElectric_Ey_def (sim : FDTDSimulator) (dt : ℚ) :
    (sim.stepElectric dt).data.electricFieldY
      = copyScalarFieldReverse (runKernel sim.gridSize
          (updateElectricY sim.cellSize
            sim.data.magneticFieldX sim.data.magneticFieldZ sim.data.electricFieldY dt)) := rfl

theorem stepElectric_Ez_def (sim : FDTDSimulator) (dt : ℚ) :
    (sim.stepElectric dt).data.electricFieldZ
      = copyScalarFieldReverse (runKernel sim.gridSize
          (updateElectricZ sim.cellSize
            sim.data.magneticFieldX sim.data.magneticFieldY sim.data.electricFieldZ dt)) := rfl

/-- Claim C2: for every state, every `dt` and every in-range cell
`(x, y, z)`, `stepMagnetic dt` replaces the magnetic components pointwise
by the forward-difference curl stencils, with every neighbor term whose
index+1 is out of range taken as `0`. -/
theorem stepMagnetic_pointwise (sim : FDTDSimulator) (dt : ℚ) (x y z : Nat)
    (hx : x < sim.gridSize.1) (hy : y < sim.gridSize.2.1) (hz : z < sim.gridSize.2.2) :
    get3 ((sim.stepMagnetic dt).data.magneticFieldX) x y z
      = get3 sim.data.magneticFieldX x y z
        - dt / sim.cellSize *
          (((if y + 1 < sim.gridSize.2.1 then get3 sim.data.electricFieldZ x (y + 1) z else 0)
              - get3 sim.data.electricFieldZ x y z)
            - ((if z + 1 < sim.gridSize.2.2 then get3 sim.data.electricFieldY x y (z + 1) else 0)
              - get3 sim.data.electricFieldY x y z))
  ∧ get3 ((sim.stepMagnetic dt).data.magneticFieldY) x y z
      = get3 sim.data.magneticFieldY x y z
        - dt / sim.cellSize *
          (((if z + 1 < sim.gridSize.2.2 then get3 sim.data.electricFieldX x y (z + 1) else 0)
              - get3 sim.data.electricFieldX x y z)
            - ((if x + 1 < sim.gridSize.1 then get3 sim.data.electricFieldZ (x + 1) y z else 0)
              - get3 sim.data.electricFieldZ x y z))
  ∧ get3 ((sim.stepMagnetic dt).data.magneticFieldZ) x y z
      = get3 sim.data.magneticFieldZ x y z
        - dt / sim.cellSize *
          (((if x + 1 < sim.gridSize.1 then get3 sim.data.electricFieldY (x + 1) y z else 0)
              - get3 sim.data.electricFieldY x y z)
            - ((if y + 1 < sim.gridSize.2.1 then get3 sim.data.electricFieldX x (y + 1) z else 0)
              - get3 sim.data.electricFieldX x y z)) := by
  refine ⟨?_, ?_, ?_⟩
  · rw [stepMagnetic_Hx_def, get3_adapt, if_pos ⟨hx, hy, hz⟩]
    simp only [updateMagneticX]
    split_ifs <;> first | ring1 | (exfalso; omega)
  · rw [stepMagnetic_Hy_def, get3_adapt, if_pos ⟨hx, hy, hz⟩]
    simp only [updateMagneticY]
    split_ifs <;> first | ring1 | (exfalso; omega)
  · rw [stepMagnetic_Hz_def, get3_adapt, if_pos ⟨hx, hy, hz⟩]
    simp only [updateMagneticZ]
    split_ifs <;> first | ring1 | (exfalso; omega)

theorem stepMagnetic_pointwise_witness :
    ((0 : Nat) < 2 ∧ (0 : Nat) < 2 ∧ (1 : Nat) < 2)
  ∧ get3 (((FDTDSimulator.construct (2, 2, 2) 1).stepMagnetic (1 / 10)).data.magneticFieldX)
      0 0 1 = 0 := by
  have h := stepMagnetic_pointwise (FDTDSimulator.construct (2, 2, 2) 1) (1 / 10) 0 0 1
    (by decide) (by decide) (by decide)
  refine ⟨by decide, ?_⟩
  rw [h.1]
  norm_num [FDTDSimulator.construct, get3_makeField3D]

/-- Claim C3: for every state, every `dt` and every in-range cell
`(x, y, z)`, `stepElectric dt` replaces the electric components pointwise
by the backward-difference curl stencils, with every neighbor term whose
index−1 would be below `0` taken as `0`. -/
theorem stepElectric_pointwise (sim : FDTDSimulator) (dt : ℚ) (x y z : Nat)
    (hx : x < sim.gridSize.1) (hy : y < sim.gridSize.2.1) (hz : z < sim.gridSize.2.2) :
    get3 ((sim.stepElectric dt).data.electricFieldX) x y z
      = get3 sim.data.electricFieldX x y z
        + dt / sim.cellSize *
          ((get3 sim.data.magneticFieldZ x y z
              - (if y = 0 then 0 else get3 sim.data.magneticFieldZ x (y - 1) z))
            - (get3 sim.data.magneticFieldY x y z
              - (if z = 0 then 0 else get3 sim.data.magneticFieldY x y (z - 1))))
  ∧ get3 ((sim.stepElectric dt).data.electricFieldY) x y z
      = get3 sim.data.electricFieldY x y z
        + dt / sim.cellSize *
          ((get3 sim.data.magneticFieldX x y z
              - (if z = 0 then 0 else get3 sim.data.magneticFieldX x y (z - 1)))
            - (get3 sim.data.magneticFieldZ x y z
              - (if x = 0 then 0 else get3 sim.data.magneticFieldZ (x - 1) y z)))
  ∧ get3 ((sim.stepElectric dt).data.electricFieldZ) x y z
      = get3 sim.data.electricFieldZ x y z
        + dt / sim.cellSize *
          ((get3 sim.data.magneticFieldY x y z
              - (if x = 0 then 0 else get3 sim.data.magneticFieldY (x - 1) y z))
            - (get3 sim.data.magneticFieldX x y z
              - (if y = 0 then 0 else get3 sim.data.magneticFieldX x (y - 1) z))) := by
  refine ⟨?_, ?_, ?_⟩
  · rw [stepElectric_Ex_def, get3_adapt, if_pos ⟨hx, hy, hz⟩]
    simp only [updateElectricX]
    ring
  · rw [stepElectric_Ey_def, get3_adapt, if_pos ⟨hx, hy, hz⟩]
    simp only [updateElectricY]
    ring
  · rw [stepElectric_Ez_def, get3_adapt, if_pos ⟨hx, hy, hz⟩]
    simp only [updateElectricZ]
    ring

theorem stepElectric_pointwise_witness :
    ((0 : Nat) < 2 ∧ (1 : Nat) < 2 ∧ (0 : Nat) < 2)
  ∧ get3 (((FDTDSimulator.construct (2, 2, 2) 1).stepElectric (1 / 10)).data.electricFieldX)
      0 1 0 = 0 := by
  have h := stepElectric_pointwise (FDTDSimulator.construct (2, 2, 2) 1) (1 / 10) 0 1 0
    (by decide) (by decide) (by decide)
  refine ⟨by decide, ?_⟩
  rw [h.1]
  norm_num [FDTDSimulator.construct, get3_makeField3D]

/-- Claim C5: every `stepElectric(dt)` and every `stepMagnetic(dt)` call
advances `time` by exactly `dt / 2`, so after `k` full leapfrog cycles
(`stepElectric` then `stepMagnetic`) from a fresh construction, `time`
equals `k * dt` (exactly, since the arithmetic is modelled over ℚ). -/
theorem time_accounting :
    (∀ (sim : FDTDSimulator) (dt : ℚ),
        (sim.stepElectric dt).data.time = sim.data.time + dt / 2
      ∧ (sim.stepMagnetic dt).data.time = sim.data.time + dt / 2)
  ∧ ∀ (gridSize : Nat × Nat × Nat) (cellSize dt : ℚ) (k : Nat),
      (runCycles (FDTDSimulator.construct gridSize cellSize) dt k).data.time = k * dt := by
  refine ⟨fun sim dt => ⟨rfl, rfl⟩, fun gridSize cellSize dt k => ?_⟩
  induction k with
  | zero => simp [runCycles, FDTDSimulator.construct]
  | succ n ih =>
      have hstep : (runCycles (FDTDSimulator.construct gridSize cellSize) dt (n + 1)).data.time
          = (runCycles (FDTDSimulator.construct gridSize cellSize) dt n).data.time
            + dt / 2 + dt / 2 := rfl
      rw [hstep, ih]
      push_cast
      ring

/-- Claim C9: `stepElectric` modifies only the three electric components and
`time`, leaving the magnetic and material fields untouched; symmetrically
`stepMagnetic` modifies only the three magnetic components and `time`. -/
theorem step_frame_effects (sim : FDTDSimulator) (dt : ℚ) :
    ((sim.stepElectric dt).data.magneticFieldX = sim.data.magneticFieldX
      ∧ (sim.stepElectric dt).data.magneticFieldY = sim.data.magneticFieldY
      ∧ (sim.stepElectric dt).data.magneticFieldZ = sim.data.magneticFieldZ
      ∧ (sim.stepElectric dt).data.permittivity = sim.data.permittivity
      ∧ (sim.stepElectric dt).data.permeability = sim.data.permeability
      ∧ (sim.stepElectric dt).gridSize = sim.gridSize
      ∧ (sim.stepElectric dt).cellSize = sim.cellSize)
  ∧ ((sim.stepMagnetic dt).data.electricFieldX = sim.data.electricFieldX
      ∧ (sim.stepMagnetic dt).data.electricFieldY = sim.data.electricFieldY
      ∧ (sim.stepMagnetic dt).data.electricFieldZ = sim.data.electricFieldZ
      ∧ (sim.stepMagnetic dt).data.permittivity = sim.data.permittivity
      ∧ (sim.stepMagnetic dt).data.permeability = sim.data.permeability
      ∧ (sim.stepMagnetic dt).gridSize = sim.gridSize
      ∧ (sim.stepMagnetic dt).cellSize = sim.cellSize) :=
  ⟨⟨rfl, rfl, rfl, rfl, rfl, rfl, rfl⟩, ⟨rfl, rfl, rfl, rfl, rfl, rfl, rfl⟩⟩

theorem runOps_permittivity : ∀ (ops : List SimOp) (sim : FDTDSimulator),
    (runOps sim ops).data.permittivity = sim.data.permittivity
  | [], _ => rfl
  | SimOp.stepE dt :: rest, sim => runOps_permittivity rest (sim.stepElectric dt)
  | SimOp.stepM dt :: rest, sim => runOps_permittivity rest (sim.stepMagnetic dt)

theorem runOps_permeability : ∀ (ops : List SimOp) (sim : FDTDSimulator),
    (runOps sim ops).data.permeability = sim.data.permeability
  | [], _ => rfl
  | SimOp.stepE dt :: rest, sim => runOps_permeability rest (sim.stepElectric dt)
  | SimOp.stepM dt :: rest, sim => runOps_permeability rest (sim.stepMagnetic dt)

theorem allZero_makeField3D_zero (shape : Nat × Nat × Nat) :
    allZero (makeField3D shape fun _ => 0) := by
  intro x y z
  rw [get3_makeField3D]
  split_ifs <;> rfl

/-- Claim C10: the material fields are allocated all-zero (value 0, not the
vacuum value 1), are neither written nor read by the stepping operations,
and hence stay identically zero after every finite operation sequence. -/
theorem material_fields_inert :
    (∀ (gridSize : Nat × Nat × Nat) (cellSize : ℚ) (x y z : Nat),
        get3 ((FDTDSimulator.construct gridSize cellSize).data.permittivity) x y z = 0
      ∧ get3 ((FDTDSimulator.construct gridSize cellSize).data.permeability) x y z = 0)
  ∧ (∀ (sim : FDTDSimulator) (dt : ℚ),
        (sim.stepElectric dt).data.permittivity = sim.data.permittivity
      ∧ (sim.stepElectric dt).data.permeability = sim.data.permeability
      ∧ (sim.stepMagnetic dt).data.permittivity = sim.data.permittivity
      ∧ (sim.stepMagnetic dt).data.permeability = sim.data.permeability)
  ∧ (∀ (sim : FDTDSimulator) (dt : ℚ) (p q : ScalarField3D),
        ({ sim with data :=
            { sim.data with permittivity := p, permeability := q } }.stepElectric dt).data.electricFieldX
          = (sim.stepElectric dt).data.electricFieldX
      ∧ ({ sim with data :=
            { sim.data with permittivity := p, permeability := q } }.stepElectric dt).data.electricFieldY
          = (sim.stepElectric dt).data.electricFieldY
      ∧ ({ sim with data :=
            { sim.data with permittivity := p, permeability := q } }.stepElectric dt).data.electricFieldZ
          = (sim.stepElectric dt).data.electricFieldZ
      ∧ ({ sim with data :=
            { sim.data with permittivity := p, permeability := q } }.stepMagnetic dt).data.magneticFieldX
          = (sim.stepMagnetic dt).data.magneticFieldX
      ∧ ({ sim with data :=
            { sim.data with permittivity := p, permeability := q } }.stepMagnetic dt).data.magneticFieldY
          = (sim.stepMagnetic dt).data.magneticFieldY
      ∧ ({ sim with data :=
            { sim.data with permittivity := p, permeability := q } }.stepMagnetic dt).data.magneticFieldZ
          = (sim.stepMagnetic dt).data.magneticFieldZ)
  ∧ ∀ (gridSize : Nat × Nat × Nat) (cellSize : ℚ) (ops : List SimOp) (x y z : Nat),
      get3 ((runOps (FDTDSimulator.construct gridSize cellSize) ops).data.permittivity) x y z = 0
    ∧ get3 ((runOps (FDTDSimulator.construct gridSize cellSize) ops).data.permeability) x y z = 0 := by
  refine ⟨?_, fun sim dt => ⟨rfl, rfl, rfl, rfl⟩,
    fun sim dt p q => ⟨rfl, rfl, rfl, rfl, rfl, rfl⟩, ?_⟩
  · intro gridSize cellSize x y z
    exact ⟨allZero_makeField3D_zero gridSize x y z, allZero_makeField3D_zero gridSize x y z⟩
  · intro gridSize cellSize ops x y z
    rw [runOps_permittivity, runOps_permeability]
    exact ⟨allZero_makeField3D_zero gridSize x y z, allZero_makeField3D_zero gridSize x y z⟩

theorem allZero_adapt (gridSize : Nat × Nat × Nat) (body : Nat → Nat → Nat → ℚ)
    (h : ∀ x y z, body x y z = 0) :
    allZero (copyScalarFieldReverse (runKernel gridSize body)) := by
  intro x y z
  rw [get3_adapt]
  split_ifs with hc
  · exact h x y z
  · rfl

/-- The six dynamic fields all read as zero. -/
def allEHZero (sim : FDTDSimulator) : Prop :=
  allZero sim.data.electricFieldX ∧ allZero sim.data.electricFieldY ∧
  allZero sim.data.electricFieldZ ∧ allZero sim.data.magneticFieldX ∧
  allZero sim.data.magneticFieldY ∧ allZero sim.data.magneticFieldZ

theorem allEHZero_construct (gridSize : Nat × Nat × Nat) (cellSize : ℚ) :
    allEHZero (FDTDSimulator.construct gridSize cellSize) :=
  ⟨allZero_makeField3D_zero gridSize, allZero_makeField3D_zero gridSize,
   allZero_makeField3D_zero gridSize, allZero_makeField3D_zero gridSize,
   allZero_makeField3D_zero gridSize, allZero_makeField3D_zero gridSize⟩

theorem allEHZero_stepElectric (sim : FDTDSimulator) (dt : ℚ) (h : allEHZero sim) :
    allEHZero (sim.stepElectric dt) := by
  obtain ⟨hEx, hEy, hEz, hHx, hHy, hHz⟩ := h
  have hEx' : ∀ a b c : Nat, get3 sim.data.electricFieldX a b c = 0 := hEx
  have hEy' : ∀ a b c : Nat, get3 sim.data.electricFieldY a b c = 0 := hEy
  have hEz' : ∀ a b c : Nat, get3 sim.data.electricFieldZ a b c = 0 := hEz
  have hHx' : ∀ a b c : Nat, get3 sim.data.magneticFieldX a b c = 0 := hHx
  have hHy' : ∀ a b c : Nat, get3 sim.data.magneticFieldY a b c = 0 := hHy
  have hHz' : ∀ a b c : Nat, get3 sim.data.magneticFieldZ a b c = 0 := hHz
  refine ⟨?_, ?_, ?_, hHx, hHy, hHz⟩
  · rw [stepElectric_Ex_def]
    exact allZero_adapt _ _ fun x y z => by simp [updateElectricX, hEx', hHy', hHz']
  · rw [stepElectric_Ey_def]
    exact allZero_adapt _ _ fun x y z => by simp [updateElectricY, hEy', hHx', hHz']
  · rw [stepElectric_Ez_def]
    exact allZero_adapt _ _ fun x y z => by simp [updateElectricZ, hEz', hHx', hHy']

theorem allEHZero_stepMagnetic (sim : FDTDSimulator) (dt : ℚ) (h : allEHZero sim) :
    allEHZero (sim.stepMagnetic dt) := by
  obtain ⟨hEx, hEy, hEz, hHx, hHy, hHz⟩ := h
  have hEx' : ∀ a b c : Nat, get3 sim.data.electricFieldX a b c = 0 := hEx
  have hEy' : ∀ a b c : Nat, get3 sim.data.electricFieldY a b c = 0 := hEy
  have hEz' : ∀ a b c : Nat, get3 sim.data.electricFieldZ a b c = 0 := hEz
  have hHx' : ∀ a b c : Nat, get3 sim.data.magneticFieldX a b c = 0 := hHx
  have hHy' : ∀ a b c : Nat, get3 sim.data.magneticFieldY a b c = 0 := hHy
  have hHz' : ∀ a b c : Nat, get3 sim.data.magneticFieldZ a b c = 0 := hHz
  refine ⟨hEx, hEy, hEz, ?_, ?_, ?_⟩
  · rw [stepMagnetic_Hx_def]
    exact allZero_adapt _ _ fun x y z => by simp [updateMagneticX, hHx', hEy', hEz']
  · rw [stepMagnetic_Hy_def]
    exact allZero_adapt _ _ fun x y z => by simp [updateMagneticY, hHy', hEx', hEz']
  · rw [stepMagnetic_Hz_def]
    exact allZero_adapt _ _ fun x y z => by simp [updateMagneticZ, hHz', hEx', hEy']

/-- Claim C6: for every grid shape and every `dt`, one full leapfrog cycle
(`stepElectric(dt)` then `stepMagnetic(dt)`) on the all-zero constructed
state leaves all six field components exactly zero at every cell. -/
theorem zero_fixed_point (gridSize : Nat × Nat × Nat) (cellSize dt : ℚ) (x y z : Nat) :
    get3 ((stepCycle (FDTDSimulator.construct gridSize cellSize) dt).data.electricFieldX) x y z = 0
  ∧ get3 ((stepCycle (FDTDSimulator.construct gridSize cellSize) dt).data.electricFieldY) x y z = 0
  ∧ get3 ((stepCycle (FDTDSimulator.construct gridSize cellSize) dt).data.electricFieldZ) x y z = 0
  ∧ get3 ((stepCycle (FDTDSimulator.construct gridSize cellSize) dt).data.magneticFieldX) x y z = 0
  ∧ get3 ((stepCycle (FDTDSimulator.construct gridSize cellSize) dt).data.magneticFieldY) x y z = 0
  ∧ get3 ((stepCycle (FDTDSimulator.construct gridSize cellSize) dt).data.magneticFieldZ) x y z = 0 := by
  have h2 : allEHZero (stepCycle (FDTDSimulator.construct gridSize cellSize) dt) :=
    allEHZero_stepMagnetic _ dt
      (allEHZero_stepElectric _ dt (allEHZero_construct gridSize cellSize))
  obtain ⟨hEx, hEy, hEz, hHx, hHy, hHz⟩ := h2
  exact ⟨hEx x y z, hEy x y z, hEz x y z, hHx x y z, hHy x y z, hHz x y z⟩

theorem hasShape_nest (a b c : Nat) (g : Nat → Nat → Nat → ℚ) :
    hasShape ((List.range a).map fun i =>
                (List.range b).map fun j =>
                  (List.range c).map fun k => g i j k) a b c := by
  refine ⟨by simp, ?_⟩
  intro row hrow
  simp only [List.mem_map, List.mem_range] at hrow
  obtain ⟨i, hi, rfl⟩ := hrow
  refine ⟨by simp, ?_⟩
  intro cell hcell
  simp only [List.mem_map, List.mem_range] at hcell
  obtain ⟨j, hj, rfl⟩ := hcell
  simp

theorem hasShape_makeField3D (shape : Nat × Nat × Nat) (g : Nat × Nat × Nat → ℚ) :
    hasShape (makeField3D shape g) shape.1 shape.2.1 shape.2.2 := by
  unfold makeField3D
  exact hasShape_nest shape.1 shape.2.1 shape.2.2 fun i j k => g (i, j, k)

theorem allShapes_construct (gridSize : Nat × Nat × Nat) (cellSize : ℚ) :
    allShapes (FDTDSimulator.construct gridSize cellSize) :=
  ⟨hasShape_makeField3D gridSize fun _ => 0, hasShape_makeField3D gridSize fun _ => 0,
   hasShape_makeField3D gridSize fun _ => 0, hasShape_makeField3D gridSize fun _ => 0,
   hasShape_makeField3D gridSize fun _ => 0, hasShape_makeField3D gridSize fun _ => 0,
   hasShape_makeField3D gridSize fun _ => 0, hasShape_makeField3D gridSize fun _ => 0⟩

theorem hasShape_adapt (gridSize : Nat × Nat × Nat) (body : Nat → Nat → Nat → ℚ)
    (h2 : 0 < gridSize.2.1) (h3 : 0 < gridSize.2.2) :
    hasShape (copyScalarFieldReverse (runKernel gridSize body))
      gridSize.1 gridSize.2.1 gridSize.2.2 := by
  unfold copyScalarFieldReverse
  rw [dim0_runKernel, dim1_runKernel _ _ h3, dim2_runKernel _ _ h3 h2]
  exact hasShape_nest gridSize.1 gridSize.2.1 gridSize.2.2
    fun i j k => get3 (runKernel gridSize body) k j i

theorem allShapes_stepElectric (sim : FDTDSimulator) (dt : ℚ)
    (h2 : 0 < sim.gridSize.2.1) (h3 : 0 < sim.gridSize.2.2) (h : allShapes sim) :
    allShapes (sim.stepElectric dt) := by
  obtain ⟨_, _, _, sHx, sHy, sHz, sP, sM⟩ := h
  refine ⟨?_, ?_, ?_, sHx, sHy, sHz, sP, sM⟩
  · rw [stepElectric_Ex_def]
    exact hasShape_adapt _ _ h2 h3
  · rw [stepElectric_Ey_def]
    exact hasShape_adapt _ _ h2 h3
  · rw [stepElectric_Ez_def]
    exact hasShape_adapt _ _ h2 h3

theorem allShapes_stepMagnetic (sim : FDTDSimulator) (dt : ℚ)
    (h2 : 0 < sim.gridSize.2.1) (h3 : 0 < sim.gridSize.2.2) (h : allShapes sim) :
    allShapes (sim.stepMagnetic dt) := by
  obtain ⟨sEx, sEy, sEz, _, _, _, sP, sM⟩ := h
  refine ⟨sEx, sEy, sEz, ?_, ?_, ?_, sP, sM⟩
  · rw [stepMagnetic_Hx_def]
    exact hasShape_adapt _ _ h2 h3
  · rw [stepMagnetic_Hy_def]
    exact hasShape_adapt _ _ h2 h3
  · rw [stepMagnetic_Hz_def]
    exact hasShape_adapt _ _ h2 h3

theorem allShapes_runOps : ∀ (ops : List SimOp) (sim : FDTDSimulator),
    0 < sim.gridSize.2.1 → 0 < sim.gridSize.2.2 → allShapes sim →
    allShapes (runOps sim ops)
  | [], _, _, _, h => h
  | SimOp.stepE dt :: rest, sim, h2, h3, h =>
      allShapes_runOps rest (sim.stepElectric dt) h2 h3
        (allShapes_stepElectric sim dt h2 h3 h)
  | SimOp.stepM dt :: rest, sim, h2, h3, h =>
      allShapes_runOps rest (sim.stepMagnetic dt) h2 h3
        (allShapes_stepMagnetic sim dt h2 h3 h)

/-- Claim C7: for every validly constructed simulator (three positive grid
dimensions) and every finite sequence of stepping operations, each of the
eight stored fields keeps dimensions exactly equal to the constructed grid
shape. -/
theorem shape_invariance (gridSize : Nat × Nat × Nat) (cellSize : ℚ) (ops : List SimOp)
    (_h1 : 0 < gridSize.1) (h2 : 0 < gridSize.2.1) (h3 : 0 < gridSize.2.2) :
    allShapes (runOps (FDTDSimulator.construct gridSize cellSize) ops) :=
  allShapes_runOps ops (FDTDSimulator.construct gridSize cellSize) h2 h3
    (allShapes_construct gridSize cellSize)

theorem shape_invariance_witness :
    ((0 : Nat) < 2 ∧ (0 : Nat) < 1 ∧ (0 : Nat) < 3)
  ∧ allShapes (runOps (FDTDSimulator.construct (2, 1, 3) 1)
      [SimOp.stepE 1, SimOp.stepM (1 / 2)]) :=
  ⟨by decide, shape_invariance (2, 1, 3) 1 [SimOp.stepE 1, SimOp.stepM (1 / 2)]
    (by decide) (by decide) (by decide)⟩

theorem hasShape_dims (f : ScalarField3D) (a b c : Nat)
    (ha : 0 < a) (hb : 0 < b) (h : hasShape f a b c) :
    dim0 f = a ∧ dim1 f = b ∧ dim2 f = c := by
  obtain ⟨hlen, hrows⟩ := h
  have hfl : 0 < f.length := by rw [hlen]; exact ha
  have hrow0 : f.getD 0 [] = f[0] := by
    rw [List.getD_eq_getElem?_getD, List.getElem?_eq_getElem hfl]
    rfl
  have hrow_mem : f.getD 0 [] ∈ f := by
    rw [hrow0]
    exact List.getElem_mem hfl
  obtain ⟨hrB, hcells⟩ := hrows _ hrow_mem
  have hrl : 0 < (f.getD 0 []).length := by rw [hrB]; exact hb
  have hcell0 : (f.getD 0 []).getD 0 [] = (f.getD 0 [])[0] := by
    rw [List.getD_eq_getElem?_getD, List.getElem?_eq_getElem hrl]
    rfl
  have hcell_mem : (f.getD 0 []).getD 0 [] ∈ f.getD 0 [] := by
    rw [hcell0]
    exact List.getElem_mem hrl
  exact ⟨hlen, hrB, hcells _ hcell_mem⟩

/-- Claim C8: the layout adapter is a pure reindexing copy: on an input of
shape `[a][b][c]` it returns an array of shape `[c][b][a]` in which the
element at backend position `[x][y][z]` appears at engine position
`[z][y][x]`, with no value altered.  (For `a = 0` or `b = 0` the source
function throws reading `field[0][0].length`, so those degenerate inputs
are outside its domain.) -/
theorem layout_adapter_reindex (f : ScalarField3D) (a b c : Nat)
    (ha : 0 < a) (hb : 0 < b) (hf : hasShape f a b c) :
    hasShape (copyScalarFieldReverse f) c b a
  ∧ ∀ x y z : Nat, x < a → y < b → z < c →
      get3 (copyScalarFieldReverse f) z y x = get3 f x y z := by
  obtain ⟨h0, h1, h2⟩ := hasShape_dims f a b c ha hb hf
  constructor
  · unfold copyScalarFieldReverse
    rw [h0, h1, h2]
    exact hasShape_nest c b a fun i j k => get3 f k j i
  · intro x y z hx hy hz
    rw [copyScalarFieldReverse_nest, h0, h1, h2, if_pos ⟨hz, hy, hx⟩]

theorem layout_adapter_reindex_witness :
    ((0 : Nat) < 1 ∧ (0 : Nat) < 3
      ∧ hasShape [[[(1 : ℚ), 2], [3, 4], [5, 6]]] 1 3 2)
  ∧ (hasShape (copyScalarFieldReverse [[[(1 : ℚ), 2], [3, 4], [5, 6]]]) 2 3 1
      ∧ ∀ x y z : Nat, x < 1 → y < 3 → z < 2 →
          get3 (copyScalarFieldReverse [[[(1 : ℚ), 2], [3, 4], [5, 6]]]) z y x
            = get3 [[[(1 : ℚ), 2], [3, 4], [5, 6]]] x y z) :=
  ⟨⟨by decide, by decide, by decide⟩,
    layout_adapter_reindex [[[(1 : ℚ), 2], [3, 4], [5, 6]]] 1 3 2
      (by decide) (by decide) (by decide)⟩

/-- Claim C1 counterexample: the source constructor performs no
validation.  With `cellSize = -1` (and likewise with a zero grid
dimension) construction does not fail with a configuration error as the
claim states: it returns a fully built state — with a zero dimension the
oversized loops simply produce empty arrays, silently. -/
theorem construct_invalid_accepted :
    constructChecked (2, 2, 2) (-1) = none
  ∧ (FDTDSimulator.construct (2, 2, 2) (-1)).data.time = 0
  ∧ (FDTDSimulator.construct (2, 2, 2) (-1)).cellSize = -1
  ∧ constructChecked (0, 2, 2) 1 = none
  ∧ (FDTDSimulator.construct (0, 2, 2) 1).data.electricFieldX = [] := by
  refine ⟨?_, rfl, rfl, ?_, rfl⟩
  · unfold constructChecked
    norm_num
  · unfold constructChecked
    norm_num

/-- Claim C1 (amended): construction never fails and never validates its
arguments — every `gridSize` and `cellSize` (positive or not) is accepted
as-is; for every input the resulting state has `time = 0` and all eight
fields allocated zero-filled with the grid shape (for valid inputs this is
exactly the behavior the original claim describes). -/
theorem construct_no_validation (gridSize : Nat × Nat × Nat) (cellSize : ℚ) :
    (FDTDSimulator.construct gridSize cellSize).data.time = 0
  ∧ (FDTDSimulator.construct gridSize cellSize).gridSize = gridSize
  ∧ (FDTDSimulator.construct gridSize cellSize).cellSize = cellSize
  ∧ allShapes (FDTDSimulator.construct gridSize cellSize)
  ∧ ∀ x y z : Nat,
      get3 ((FDTDSimulator.construct gridSize cellSize).data.electricFieldX) x y z = 0
    ∧ get3 ((FDTDSimulator.construct gridSize cellSize).data.electricFieldY) x y z = 0
    ∧ get3 ((FDTDSimulator.construct gridSize cellSize).data.electricFieldZ) x y z = 0
    ∧ get3 ((FDTDSimulator.construct gridSize cellSize).data.magneticFieldX) x y z = 0
    ∧ get3 ((FDTDSimulator.construct gridSize cellSize).data.magneticFieldY) x y z = 0
    ∧ get3 ((FDTDSimulator.construct gridSize cellSize).data.magneticFieldZ) x y z = 0
    ∧ get3 ((FDTDSimulator.construct gridSize cellSize).data.permittivity) x y z = 0
    ∧ get3 ((FDTDSimulator.construct gridSize cellSize).data.permeability) x y z = 0 :=
  ⟨rfl, rfl, rfl, allShapes_construct gridSize cellSize, fun x y z =>
    ⟨allZero_makeField3D_zero gridSize x y z, allZero_makeField3D_zero gridSize x y z,
     allZero_makeField3D_zero gridSize x y z, allZero_makeField3D_zero gridSize x y z,
     allZero_makeField3D_zero gridSize x y z, allZero_makeField3D_zero gridSize x y z,
     allZero_makeField3D_zero gridSize x y z, allZero_makeField3D_zero gridSize x y z⟩⟩

/-- The spec's boundary-truncation scenario: grid `(2, 2, 2)`,
`cellSize = 1`, `Ez[0][1][1] = 5`, everything else zero. -/
def boundaryEz : ScalarField3D :=
  makeField3D (2, 2, 2) fun p => if p = (0, 1, 1) then 5 else 0

/-- The state of the boundary-truncation scenario. -/
def boundarySim : FDTDSimulator :=
  { gridSize := (2, 2, 2)
    cellSize := 1
    data :=
      { (FDTDSimulator.construct (2, 2, 2) 1).data with electricFieldZ := boundaryEz } }

theorem boundarySim_gridSize : boundarySim.gridSize = (2, 2, 2) := rfl

theorem boundarySim_cellSize : boundarySim.cellSize = 1 := rfl

theorem boundarySim_Ey : boundarySim.data.electricFieldY = makeField3D (2, 2, 2) fun _ => 0 := rfl

theorem boundarySim_Ez : boundarySim.data.electricFieldZ = boundaryEz := rfl

theorem boundarySim_Hx : boundarySim.data.magneticFieldX = makeField3D (2, 2, 2) fun _ => 0 := rfl

theorem boundary_Hx_at_001 :
    get3 ((boundarySim.stepMagnetic (1 / 10)).data.magneticFieldX) 0 0 1 = -(1 / 2) := by
  rw [stepMagnetic_Hx_def, boundarySim_gridSize, boundarySim_cellSize,
    boundarySim_Ey, boundarySim_Ez, boundarySim_Hx, get3_adapt]
  norm_num [updateMagneticX, boundaryEz, get3_makeField3D]

theorem boundary_Hx_at_011 :
    get3 ((boundarySim.stepMagnetic (1 / 10)).data.magneticFieldX) 0 1 1 = 1 / 2 := by
  rw [stepMagnetic_Hx_def, boundarySim_gridSize, boundarySim_cellSize,
    boundarySim_Ey, boundarySim_Ez, boundarySim_Hx, get3_adapt]
  norm_num [updateMagneticX, boundaryEz, get3_makeField3D]

/-- Claim C4 counterexample: in the spec's boundary-truncation scenario,
after one `stepMagnetic(0.1)` call the value of `Hx[0][0][1]` is not the
claimed `0.5` (it is `-0.5`: at cell `(0, 0, 1)` the neighbor `Ez[0][1][1] = 5`
is in range, so nothing is truncated there). -/
theorem boundary_claim_false :
    get3 ((boundarySim.stepMagnetic (1 / 10)).data.magneticFieldX) 0 0 1 ≠ 1 / 2 := by
  rw [boundary_Hx_at_001]
  norm_num

/-- Claim C4 (amended): in the spec's boundary-truncation scenario, after
one `stepMagnetic(0.1)` call `Hx[0][0][1] = -0.5`, and the closed-form
truncated-stencil value `0 - 0.1*((0 - 5) - (0 - 0))/1 = 0.5` appears at
`Hx[0][1][1]`, the cell whose `y + 1` neighbor actually is out of range. -/
theorem boundary_cell_value :
    get3 ((boundarySim.stepMagnetic (1 / 10)).data.magneticFieldX) 0 0 1 = -(1 / 2)
  ∧ get3 ((boundarySim.stepMagnetic (1 / 10)).data.magneticFieldX) 0 1 1 = 1 / 2 :=
  ⟨boundary_Hx_at_001, boundary_Hx_at_011⟩
